import Mathlib

/-
Verification of the netSecAudit discovery/topology engine specification
against the repository source. Python source functions are shallowly
embedded as Lean definitions: random number draws become explicit draw
streams (a call random.randint(a, b) is modelled as a + draw % (b - a + 1),
and random.choice(l) as l[draw % len(l)], so every reachable value of the
Python call corresponds to some draw), exceptions become Except/Option
values, and floats are modelled as rationals.
-/

namespace NetSecAudit

/-! ## Data model: src/database/models.py -/

/-- The DeviceStatus enum of src/database/models.py (lines 10-14):
it declares exactly the four members ONLINE, WARNING, OFFLINE, MAINTENANCE. -/
inductive DeviceStatus where
  | online
  | warning
  | offline
  | maintenance
deriving DecidableEq, Repr

/-- The string value carried by each DeviceStatus enum member. -/
def DeviceStatus.value : DeviceStatus → String
  | .online => "online"
  | .warning => "warning"
  | .offline => "offline"
  | .maintenance => "maintenance"

/-- The members of the DeviceStatus enum, in declaration order. -/
def deviceStatusMembers : List DeviceStatus :=
  [.online, .warning, .offline, .maintenance]

/-- The value-based enum lookup DeviceStatus(s): returns the member whose
value equals s, and raises ValueError (here: none) otherwise. -/
def DeviceStatus.ofValue? (s : String) : Option DeviceStatus :=
  deviceStatusMembers.find? (fun m => m.value = s)

/-- The AlertSeverity enum of src/database/models.py (lines 16-20). -/
inductive AlertSeverity where
  | low
  | medium
  | high
  | critical
deriving DecidableEq, Repr

/-- The string value carried by each AlertSeverity enum member. -/
def AlertSeverity.value : AlertSeverity → String
  | .low => "low"
  | .medium => "medium"
  | .high => "high"
  | .critical => "critical"

/-- The members of the AlertSeverity enum, in declaration order. -/
def alertSeverityMembers : List AlertSeverity :=
  [.low, .medium, .high, .critical]

/-- The value-based enum lookup AlertSeverity(s). -/
def AlertSeverity.ofValue? (s : String) : Option AlertSeverity :=
  alertSeverityMembers.find? (fun m => m.value = s)

/-- The statuses list of generate_device_inventory in
src/data/mock_generator.py (line 376), from which every generated
inventory record draws its status. -/
def inventoryStatuses : List String :=
  ["online", "offline", "warning", "maintenance"]

end NetSecAudit

namespace NetSecAudit

/-! ## Topology graph: create_network_graph of src/utils.py (lines 104-183)

A networkx Graph is modelled as a list of attributed nodes plus a list of
undirected edges kept without duplicates (G.add_edge is a no-op when the
unordered pair is already present, and adds missing endpoints as nodes,
which is the documented networkx behaviour). -/

/-- One node of the graph with its type and status attributes. -/
structure NodeInfo where
  nid : Nat
  ntype : String
  nstatus : String
deriving DecidableEq, Repr

/-- The graph held by networkx: attributed nodes and undirected edges. -/
structure Graph where
  nodes : List NodeInfo
  edges : List (Nat × Nat)
deriving DecidableEq, Repr

/-- The ids of the nodes of the graph. -/
def Graph.nodeIds (g : Graph) : List Nat :=
  g.nodes.map NodeInfo.nid

/-- G.add_node i with attributes: no-op when the id is already a node. -/
def Graph.addNode (g : Graph) (i : Nat) (t s : String) : Graph :=
  if i ∈ g.nodeIds then g else { g with nodes := g.nodes ++ [⟨i, t, s⟩] }

/-- Whether the unordered pair (u, v) is already an edge. -/
def Graph.hasEdge (g : Graph) (u v : Nat) : Bool :=
  g.edges.any (fun e => (e.1 = u ∧ e.2 = v) ∨ (e.1 = v ∧ e.2 = u))

/-- G.add_edge u v: adds missing endpoints as (attribute-free) nodes and
records the unordered pair once. -/
def Graph.withEndpoints (g : Graph) (u v : Nat) : Graph :=
  (g.addNode u "" "").addNode v "" ""

def Graph.addEdge (g : Graph) (u v : Nat) : Graph :=
  if (g.withEndpoints u v).hasEdge u v then g.withEndpoints u v
  else { g.withEndpoints u v with edges := (g.withEndpoints u v).edges ++ [(u, v)] }

/-- random.choice applied to the node_type list of create_network_graph
(line 120), with the draw mapped into the list by its remainder. -/
def chooseNodeType (draw : Nat) : String :=
  (["server", "router", "switch", "client"]).getD (draw % 4) ""

/-- random.choice applied to the node_status list of create_network_graph
(line 121): "online" appears three times, so it is drawn more often. -/
def chooseNodeStatus (draw : Nat) : String :=
  (["online", "online", "online", "warning", "offline"]).getD (draw % 5) ""

/-- The node-creation loop of create_network_graph (lines 119-122): for i
in range(num_nodes), add node i with a drawn type and status. -/
def initialNodes (num_nodes : Nat) (typeDraws statusDraws : Nat → Nat) : Graph :=
  (List.range num_nodes).foldl
    (fun g i => g.addNode i (chooseNodeType (typeDraws i)) (chooseNodeStatus (statusDraws i)))
    ⟨[], []⟩

/-- The edge loop of create_network_graph (lines 125-129): while
len(G.edges) < num_edges, draw u and v with randint(0, num_nodes-1) and
add the edge when u differs from v. randint(0, num_nodes-1) raises
ValueError when num_nodes = 0 (modelled as none), and the while loop need
not terminate, so the recursion carries fuel and returns none when the
fuel runs out before the loop condition turns false. -/
def edgeLoop (num_nodes num_edges : Nat) (pairDraws : Nat → Nat × Nat) :
    Nat → Nat → Graph → Option Graph
  | 0, _, g => if num_edges ≤ g.edges.length then some g else none
  | fuel + 1, step, g =>
    if num_edges ≤ g.edges.length then some g
    else if num_nodes = 0 then none
    else
      let u := (pairDraws step).1 % num_nodes
      let v := (pairDraws step).2 % num_nodes
      let g2 := if u ≠ v then g.addEdge u v else g
      edgeLoop num_nodes num_edges pairDraws fuel (step + 1) g2

/-- create_network_graph of src/utils.py: builds num_nodes attributed
nodes and then draws random edges until num_edges distinct edges exist.
Only the graph construction (lines 116-129) is modelled; the remaining
lines compute plotting coordinates from the finished graph. -/
def create_network_graph (num_nodes num_edges : Nat)
    (typeDraws statusDraws : Nat → Nat) (pairDraws : Nat → Nat × Nat)
    (fuel : Nat) : Option Graph :=
  edgeLoop num_nodes num_edges pairDraws fuel 0
    (initialNodes num_nodes typeDraws statusDraws)

/-- Graph consistency: every edge's endpoints are ids of present nodes. -/
def EdgeOk (g : Graph) : Prop :=
  ∀ e ∈ g.edges, e.1 ∈ g.nodeIds ∧ e.2 ∈ g.nodeIds

theorem Graph.nodeIds_addNode (g : Graph) (i : Nat) (t s : String) :
    (g.addNode i t s).nodeIds = if i ∈ g.nodeIds then g.nodeIds else g.nodeIds ++ [i] := by
  unfold Graph.addNode
  split <;> simp_all [Graph.nodeIds]

theorem Graph.edges_addNode (g : Graph) (i : Nat) (t s : String) :
    (g.addNode i t s).edges = g.edges := by
  unfold Graph.addNode
  split <;> rfl

theorem Graph.mem_nodeIds_addNode (g : Graph) {i : Nat} (j : Nat) (t s : String)
    (h : i ∈ g.nodeIds) : i ∈ (g.addNode j t s).nodeIds := by
  rw [Graph.nodeIds_addNode]
  split <;> simp [h]

theorem Graph.self_mem_nodeIds_addNode (g : Graph) (j : Nat) (t s : String) :
    j ∈ (g.addNode j t s).nodeIds := by
  rw [Graph.nodeIds_addNode]
  split
  · assumption
  · simp

theorem Graph.nodeIds_withEndpoints (g : Graph) {i : Nat} (u v : Nat)
    (h : i ∈ g.nodeIds) : i ∈ (g.withEndpoints u v).nodeIds :=
  (g.addNode u "" "").mem_nodeIds_addNode v "" "" (g.mem_nodeIds_addNode u "" "" h)

theorem Graph.left_mem_withEndpoints (g : Graph) (u v : Nat) :
    u ∈ (g.withEndpoints u v).nodeIds :=
  (g.addNode u "" "").mem_nodeIds_addNode v "" "" (g.self_mem_nodeIds_addNode u "" "")

theorem Graph.right_mem_withEndpoints (g : Graph) (u v : Nat) :
    v ∈ (g.withEndpoints u v).nodeIds :=
  (g.addNode u "" "").self_mem_nodeIds_addNode v "" ""

theorem Graph.edges_withEndpoints (g : Graph) (u v : Nat) :
    (g.withEndpoints u v).edges = g.edges := by
  unfold Graph.withEndpoints
  rw [Graph.edges_addNode, Graph.edges_addNode]

theorem Graph.mem_nodeIds_addEdge (g : Graph) {i : Nat} (u v : Nat)
    (h : i ∈ g.nodeIds) : i ∈ (g.addEdge u v).nodeIds := by
  unfold Graph.addEdge
  split
  · exact g.nodeIds_withEndpoints u v h
  · simpa [Graph.nodeIds] using g.nodeIds_withEndpoints u v h

theorem Graph.left_mem_nodeIds_addEdge (g : Graph) (u v : Nat) :
    u ∈ (g.addEdge u v).nodeIds := by
  unfold Graph.addEdge
  split
  · exact g.left_mem_withEndpoints u v
  · simpa [Graph.nodeIds] using g.left_mem_withEndpoints u v

theorem Graph.right_mem_nodeIds_addEdge (g : Graph) (u v : Nat) :
    v ∈ (g.addEdge u v).nodeIds := by
  unfold Graph.addEdge
  split
  · exact g.right_mem_withEndpoints u v
  · simpa [Graph.nodeIds] using g.right_mem_withEndpoints u v

theorem Graph.edges_addEdge_subset (g : Graph) (u v : Nat) :
    ∀ e ∈ (g.addEdge u v).edges, e ∈ g.edges ∨ e = (u, v) := by
  intro e he
  unfold Graph.addEdge at he
  split at he
  · exact Or.inl (by simpa [Graph.edges_withEndpoints] using he)
  · simp only [Graph.edges_withEndpoints, List.mem_append, List.mem_singleton] at he
    exact he

theorem EdgeOk.addEdge {g : Graph} (h : EdgeOk g) (u v : Nat) :
    EdgeOk (g.addEdge u v) := by
  intro e he
  rcases g.edges_addEdge_subset u v e he with hmem | rfl
  · obtain ⟨h1, h2⟩ := h e hmem
    exact ⟨g.mem_nodeIds_addEdge u v h1, g.mem_nodeIds_addEdge u v h2⟩
  · exact ⟨g.left_mem_nodeIds_addEdge u v, g.right_mem_nodeIds_addEdge u v⟩

theorem edgeLoop_edgeOk (num_nodes num_edges : Nat) (pairDraws : Nat → Nat × Nat) :
    ∀ (fuel step : Nat) (g G : Graph), EdgeOk g →
      edgeLoop num_nodes num_edges pairDraws fuel step g = some G → EdgeOk G := by
  intro fuel
  induction fuel with
  | zero =>
    intro step g G hg hrun
    unfold edgeLoop at hrun
    split at hrun
    · cases hrun; exact hg
    · cases hrun
  | succ n ih =>
    intro step g G hg hrun
    unfold edgeLoop at hrun
    split at hrun
    · cases hrun; exact hg
    · split at hrun
      · cases hrun
      · refine ih (step + 1) _ G ?_ hrun
        split
        · exact hg.addEdge _ _
        · exact hg

theorem initialNodes_edges (num_nodes : Nat) (typeDraws statusDraws : Nat → Nat) :
    (initialNodes num_nodes typeDraws statusDraws).edges = [] := by
  have h : ∀ (l : List Nat) (g : Graph),
      (l.foldl (fun g i =>
        g.addNode i (chooseNodeType (typeDraws i)) (chooseNodeStatus (statusDraws i))) g).edges
      = g.edges := by
    intro l
    induction l with
    | nil => intro g; rfl
    | cons a as ih => intro g; rw [List.foldl_cons, ih, Graph.edges_addNode]
  unfold initialNodes
  rw [h]

/-- C5: every graph create_network_graph returns is internally consistent —
each edge's two endpoints are ids of nodes in the graph's node set. The
draw streams model the random.randint calls, and fuel bounds the while
loop (none models a run that raises or never returns). -/
theorem create_network_graph_consistent (num_nodes num_edges : Nat)
    (typeDraws statusDraws : Nat → Nat) (pairDraws : Nat → Nat × Nat)
    (fuel : Nat) (G : Graph)
    (h : create_network_graph num_nodes num_edges typeDraws statusDraws pairDraws fuel = some G) :
    EdgeOk G := by
  refine edgeLoop_edgeOk num_nodes num_edges pairDraws fuel 0 _ G ?_ h
  intro e he
  rw [initialNodes_edges] at he
  cases he

/-- A concrete run of create_network_graph: 3 nodes, 2 edges, with draw
streams that produce the pairs (0, 1) and (1, 2). -/
def cngWitnessGraph : Graph :=
  { nodes := [⟨0, "server", "online"⟩, ⟨1, "server", "online"⟩, ⟨2, "server", "online"⟩],
    edges := [(0, 1), (1, 2)] }

theorem create_network_graph_consistent_witness :
    create_network_graph 3 2 (fun _ => 0) (fun _ => 0) (fun s => (s, s + 1)) 3
      = some cngWitnessGraph ∧ EdgeOk cngWitnessGraph :=
  ⟨by rfl,
   create_network_graph_consistent 3 2 (fun _ => 0) (fun _ => 0) (fun s => (s, s + 1)) 3
     cngWitnessGraph (by rfl)⟩

/-! ## Graph analytics: semantics of the networkx calls made by
src/pages/4_Network_Topology.py

nx.diameter and nx.betweenness_centrality are library calls; they are
embedded by their documented semantics: shortest-path distance is the
least length of a walk between two nodes, nx.diameter is the greatest
such distance and raises NetworkXError on a disconnected graph, and
betweenness centrality of v sums sigma(s,t given v)/sigma(s,t) over pairs
with the default normalization 2/((n-1)(n-2)) for an undirected graph. -/

/-- The number of walks of length k between two nodes of the graph. -/
def walkCount (g : Graph) : Nat → Nat → Nat → Nat
  | 0, u, v => if u = v then 1 else 0
  | k + 1, u, v =>
    (g.nodeIds.map (fun w => if g.hasEdge u w then walkCount g k w v else 0)).sum

/-- Shortest-path distance: the least k with a walk of length k from u to
v (a minimum-length walk repeats no node, so it is a shortest path). A
path in a graph of n nodes has fewer than n edges, so searching
k = 0, ..., n-1 is exhaustive; none means v is unreachable from u. -/
def Graph.sdist (g : Graph) (u v : Nat) : Option Nat :=
  (List.range g.nodes.length).find? (fun k => walkCount g k u v != 0)

/-- Whether every node can reach every node (nx.is_connected semantics on
a nonempty graph). -/
def Graph.connectedb (g : Graph) : Bool :=
  g.nodeIds.all (fun u => g.nodeIds.all (fun v => (g.sdist u v).isSome))

/-- The greatest shortest-path distance over all node pairs. -/
def Graph.diameterVal (g : Graph) : Nat :=
  (g.nodeIds.flatMap (fun u => g.nodeIds.map (fun v => (g.sdist u v).getD 0))).foldl max 0

/-- The Python exceptions the statistics block can see. -/
inductive NxErr where
  | networkXError
  | valueError
  | zeroDivisionError
deriving DecidableEq, Repr

/-- nx.diameter: raises NetworkXError when the graph is not connected
(infinite path length), ValueError on an empty graph. -/
def nxDiameter (g : Graph) : Except NxErr Nat :=
  if g.nodes.isEmpty then .error .valueError
  else if g.connectedb then .ok g.diameterVal
  else .error .networkXError

/-- The displayed value of the Network Diameter metric
(src/pages/4_Network_Topology.py lines 171-177): a number, or the
"N/A (Disconnected)" cell. -/
inductive MetricValue where
  | num (d : Nat)
  | na
deriving DecidableEq, Repr

/-- Round half to even (Python round), scaled to one decimal place. -/
def roundHalfEven (q : ℚ) : ℤ :=
  if q - Int.floor q < 1 / 2 then Int.floor q
  else if 1 / 2 < q - Int.floor q then Int.floor q + 1
  else if Int.floor q % 2 = 0 then Int.floor q else Int.floor q + 1

/-- Python round(x, 1). -/
def pyRound1 (q : ℚ) : ℚ := (roundHalfEven (10 * q) : ℚ) / 10

/-- counts[key] = counts.get(key, 0) + 1 on an insertion-ordered dict. -/
def bumpCount (counts : List (String × Nat)) (key : String) : List (String × Nat) :=
  match counts with
  | [] => [(key, 1)]
  | (k, n) :: rest =>
    if k = key then (k, n + 1) :: rest else (k, n) :: bumpCount rest key

/-- The device-type histogram of the Network Details section
(src/pages/4_Network_Topology.py lines 183-186). -/
def Graph.typeCounts (g : Graph) : List (String × Nat) :=
  g.nodes.foldl (fun acc ni => bumpCount acc ni.ntype) []

/-- The status histogram of the Network Details section (lines 209-212). -/
def Graph.statusCounts (g : Graph) : List (String × Nat) :=
  g.nodes.foldl (fun acc ni => bumpCount acc ni.nstatus) []

/-- Everything the Network Statistics and Network Details sections compute
from the generated graph. -/
structure NetworkStats where
  totalDevices : Nat
  totalConnections : Nat
  avgConnections : ℚ
  diameterDisplay : MetricValue
  typeCounts : List (String × Nat)
  statusCounts : List (String × Nat)
deriving DecidableEq, Repr

/-- The statistics block of src/pages/4_Network_Topology.py (lines
155-227): average connections divides by network_size (ZeroDivisionError
when 0), the diameter call is wrapped in try/except nx.NetworkXError
(the except branch displays the N/A cell), and the type and status
histograms follow. Any uncaught exception aborts the block. -/
def statsBlock (network_size edge_count : Nat) (g : Graph) : Except NxErr NetworkStats :=
  if network_size = 0 then .error .zeroDivisionError
  else
    match nxDiameter g with
    | .ok d =>
      .ok ⟨network_size, edge_count, pyRound1 ((edge_count : ℚ) / (network_size : ℚ)),
        .num d, g.typeCounts, g.statusCounts⟩
    | .error .networkXError =>
      .ok ⟨network_size, edge_count, pyRound1 ((edge_count : ℚ) / (network_size : ℚ)),
        .na, g.typeCounts, g.statusCounts⟩
    | .error e => .error e

/-- C2: on a disconnected graph the statistics block completes normally,
reporting the diameter as the N/A (undefined) cell while every other
metric is computed as usual; the NetworkXError never escapes. -/
theorem statsBlock_disconnected (network_size edge_count : Nat) (g : Graph)
    (hns : 0 < network_size) (hg : g.connectedb = false) :
    statsBlock network_size edge_count g =
      .ok ⟨network_size, edge_count,
        pyRound1 ((edge_count : ℚ) / (network_size : ℚ)),
        .na, g.typeCounts, g.statusCounts⟩ := by
  have hne : g.nodes.isEmpty = false := by
    cases h : g.nodes.isEmpty
    · rfl
    · exfalso
      have : g.nodes = [] := List.isEmpty_iff.mp h
      rw [Graph.connectedb, Graph.nodeIds, this] at hg
      simp at hg
  unfold statsBlock nxDiameter
  rw [hne, hg]
  simp [Nat.pos_iff_ne_zero.mp hns]

/-- A concrete disconnected graph: two separate two-node components. -/
def disconnectedWitnessGraph : Graph :=
  { nodes := [⟨0, "server", "online"⟩, ⟨1, "client", "online"⟩,
              ⟨2, "switch", "warning"⟩, ⟨3, "client", "offline"⟩],
    edges := [(0, 1), (2, 3)] }

theorem statsBlock_disconnected_witness :
    statsBlock 4 2 disconnectedWitnessGraph =
      .ok ⟨4, 2, pyRound1 ((2 : ℚ) / (4 : ℚ)), .na,
        disconnectedWitnessGraph.typeCounts, disconnectedWitnessGraph.statusCounts⟩ :=
  statsBlock_disconnected 4 2 disconnectedWitnessGraph (by decide) (by decide)

/-- The number of shortest u-v paths: walks of minimum length. -/
def Graph.sigma (g : Graph) (u v : Nat) : Nat :=
  match g.sdist u v with
  | some d => walkCount g d u v
  | none => 0

/-- The shortest-path counts that determine the dependency of the pair
(s, t) on v: none when no shortest s-t path passes through the interior
node v (v is an endpoint, s = t, t is unreachable, or
d(s,v) + d(v,t) differs from d(s,t)), and otherwise the triple
(sigma(s,v), sigma(v,t), sigma(s,t)), since the shortest s-t paths
through v then number sigma(s,v) * sigma(v,t). -/
def Graph.pairDependencyKind (g : Graph) (s t v : Nat) : Option (Nat × Nat × Nat) :=
  if s = t ∨ s = v ∨ t = v then none
  else
    match g.sdist s t, g.sdist s v, g.sdist v t with
    | some dst, some dsv, some dvt =>
      if dsv + dvt = dst then some (g.sigma s v, g.sigma v t, g.sigma s t) else none
    | _, _, _ => none

/-- The dependency value sigma(s,v) * sigma(v,t) / sigma(s,t) as a
rational, zero when no shortest path passes through v. -/
def depValue : Option (Nat × Nat × Nat) → ℚ
  | none => 0
  | some (a, b, c) => ((a * b : Nat) : ℚ) / ((c : Nat) : ℚ)

/-- The fraction of shortest s-t paths passing through v. -/
def Graph.pairDependency (g : Graph) (s t v : Nat) : ℚ :=
  depValue (g.pairDependencyKind s t v)

/-- The pair dependencies on v for every ordered pair (s, t) of nodes. -/
def Graph.depTable (g : Graph) (v : Nat) : List (List (Option (Nat × Nat × Nat))) :=
  g.nodeIds.map (fun s => g.nodeIds.map (fun t => g.pairDependencyKind s t v))

/-- nx.betweenness_centrality(G)[v] with the default normalized=True on an
undirected graph: half the sum of the pair dependencies over ordered
pairs, rescaled by 2/((n-1)(n-2)) when n > 2. -/
def Graph.betweenness (g : Graph) (v : Nat) : ℚ :=
  let raw := ((g.depTable v).map (fun row => (row.map depValue).sum)).sum / 2
  if 2 < g.nodes.length then
    raw * (2 / (((g.nodes.length - 1) * (g.nodes.length - 2) : Nat) : ℚ))
  else raw

/-- A star topology of 5 nodes: hub 0 linked to the four leaves. -/
def star5 : Graph :=
  { nodes := [⟨0, "switch", "online"⟩, ⟨1, "client", "online"⟩,
              ⟨2, "client", "online"⟩, ⟨3, "client", "online"⟩,
              ⟨4, "client", "online"⟩],
    edges := [(0, 1), (0, 2), (0, 3), (0, 4)] }

theorem star5_depTable_hub : star5.depTable 0 =
    [[none, none, none, none, none],
     [none, none, some (1, 1, 1), some (1, 1, 1), some (1, 1, 1)],
     [none, some (1, 1, 1), none, some (1, 1, 1), some (1, 1, 1)],
     [none, some (1, 1, 1), some (1, 1, 1), none, some (1, 1, 1)],
     [none, some (1, 1, 1), some (1, 1, 1), some (1, 1, 1), none]] := by
  decide

theorem star5_depTable_leaf1 : star5.depTable 1 =
    List.replicate 5 (List.replicate 5 none) := by
  decide

theorem star5_depTable_leaf2 : star5.depTable 2 =
    List.replicate 5 (List.replicate 5 none) := by
  decide

theorem star5_depTable_leaf3 : star5.depTable 3 =
    List.replicate 5 (List.replicate 5 none) := by
  decide

theorem star5_depTable_leaf4 : star5.depTable 4 =
    List.replicate 5 (List.replicate 5 none) := by
  decide

theorem star5_betweenness_hub : star5.betweenness 0 = 1 := by
  unfold Graph.betweenness
  rw [star5_depTable_hub]
  norm_num [depValue, star5]

theorem star5_betweenness_leaf1 : star5.betweenness 1 = 0 := by
  unfold Graph.betweenness
  rw [star5_depTable_leaf1]
  norm_num [depValue, star5, List.replicate]

theorem star5_betweenness_leaf2 : star5.betweenness 2 = 0 := by
  unfold Graph.betweenness
  rw [star5_depTable_leaf2]
  norm_num [depValue, star5, List.replicate]

theorem star5_betweenness_leaf3 : star5.betweenness 3 = 0 := by
  unfold Graph.betweenness
  rw [star5_depTable_leaf3]
  norm_num [depValue, star5, List.replicate]

theorem star5_betweenness_leaf4 : star5.betweenness 4 = 0 := by
  unfold Graph.betweenness
  rw [star5_depTable_leaf4]
  norm_num [depValue, star5, List.replicate]

/-- C6: on the 5-node star the betweenness centrality of the hub is 1 —
strictly above every leaf — and every leaf has centrality 0. -/
theorem star5_betweenness :
    star5.betweenness 0 = 1 ∧
    star5.betweenness 1 = 0 ∧ star5.betweenness 2 = 0 ∧
    star5.betweenness 3 = 0 ∧ star5.betweenness 4 = 0 ∧
    star5.betweenness 1 < star5.betweenness 0 ∧
    star5.betweenness 2 < star5.betweenness 0 ∧
    star5.betweenness 3 < star5.betweenness 0 ∧
    star5.betweenness 4 < star5.betweenness 0 := by
  refine ⟨star5_betweenness_hub, star5_betweenness_leaf1, star5_betweenness_leaf2,
    star5_betweenness_leaf3, star5_betweenness_leaf4, ?_, ?_, ?_, ?_⟩ <;>
    rw [star5_betweenness_hub] <;>
    first
      | (rw [star5_betweenness_leaf1]; norm_num)
      | (rw [star5_betweenness_leaf2]; norm_num)
      | (rw [star5_betweenness_leaf3]; norm_num)
      | (rw [star5_betweenness_leaf4]; norm_num)

/-! ## Probes: src/components/device_discovery.py

Each discover_* method wraps its body in try/except Exception and, on an
exception, returns str(e). The network call is modelled by its outcome:
the fully parsed data the call produced, or the exception message. -/

/-- A value as returned by the dynamically typed probe methods: the
Python return type is the union of bool, str, and the Mikrotik result
dict (identity, mdp_neighbors, interfaces). -/
inductive PyVal where
  | pyBool (b : Bool)
  | pyStr (s : String)
  | pyDict (identity mdpNeighbors interfaces : List String)
deriving DecidableEq, Repr

/-- The raw observations carried by a probe return value. -/
def PyVal.observations : PyVal → List String
  | .pyBool _ => []
  | .pyStr s => [s]
  | .pyDict a b c => a ++ b ++ c

/-- discover_lldp (lines 12-18): sniff captures LLDP frames for 30
seconds; the method returns the constant True, discarding the captured
frames, or the exception message as a string. -/
def discover_lldp (sniffResult : Except String (List String)) : PyVal :=
  match sniffResult with
  | .ok _ => .pyBool true
  | .error e => .pyStr e

/-- discover_cdp (lines 20-26): same shape as discover_lldp. -/
def discover_cdp (sniffResult : Except String (List String)) : PyVal :=
  match sniffResult with
  | .ok _ => .pyBool true
  | .error e => .pyStr e

/-- discover_mdp (lines 56-62): same shape as discover_lldp. -/
def discover_mdp (sniffResult : Except String (List String)) : PyVal :=
  match sniffResult with
  | .ok _ => .pyBool true
  | .error e => .pyStr e

/-- discover_mikrotik (lines 28-54): returns the dict of the three
queried resources, or the exception message as a string. -/
def discover_mikrotik
    (apiResult : Except String (List String × List String × List String)) : PyVal :=
  match apiResult with
  | .ok r => .pyDict r.1 r.2.1 r.2.2
  | .error e => .pyStr e

/-- discover_cisco (lines 64-73): returns the decoded stdout of the SSH
command on success, or the exception message — also a plain string. -/
def discover_cisco (sshResult : Except String String) : PyVal :=
  match sshResult with
  | .ok out => .pyStr out
  | .error e => .pyStr e

/-- C3 counterexample: a sniff that fully parses the frame
"lldp-frame-1" still makes discover_lldp return the bare constant True —
the parsed observation is silently dropped from the returned value — and
discover_cisco returns the very same value for a successful command
output and for an exception whose message is that text, so its failure
value is not distinguishable from a successful result. -/
theorem probe_drops_observations :
    discover_lldp (Except.ok ["lldp-frame-1"]) = PyVal.pyBool true ∧
    (discover_lldp (Except.ok ["lldp-frame-1"])).observations = [] ∧
    discover_cisco (Except.ok "Device ID: sw1") =
      discover_cisco (Except.error "Device ID: sw1") :=
  ⟨rfl, rfl, rfl⟩

/-- C3 (amended): every probe catches all exceptions and returns the
exception message as a plain string instead of a typed failure; on
success the sniff-based probes (discover_lldp, discover_cdp,
discover_mdp) return only the constant True, discarding every gathered
observation, while discover_cisco returns the raw output string (the
same type as its failure value) and discover_mikrotik returns the parsed
resource dict. -/
theorem probe_return_shape (pkts : List String) (e out : String)
    (api : List String × List String × List String) :
    discover_lldp (Except.ok pkts) = PyVal.pyBool true ∧
    discover_lldp (Except.error e) = PyVal.pyStr e ∧
    discover_cdp (Except.ok pkts) = PyVal.pyBool true ∧
    discover_cdp (Except.error e) = PyVal.pyStr e ∧
    discover_mdp (Except.ok pkts) = PyVal.pyBool true ∧
    discover_mdp (Except.error e) = PyVal.pyStr e ∧
    discover_cisco (Except.ok out) = PyVal.pyStr out ∧
    discover_cisco (Except.error e) = PyVal.pyStr e ∧
    discover_mikrotik (Except.ok api) = PyVal.pyDict api.1 api.2.1 api.2.2 ∧
    discover_mikrotik (Except.error e) = PyVal.pyStr e :=
  ⟨rfl, rfl, rfl, rfl, rfl, rfl, rfl, rfl, rfl, rfl⟩

/-! ## Identity Resolver (spec section 4.3)

The repository has no Identity Resolver implementation under src/ — the
discovery code returns raw values and nothing merges observations — so
the resolver is modelled from the spec and the claim settled against
that model. -/

/-- Modelled from the spec: the kinds of discovery source (passive
link-layer listener, authenticated remote-query client, vendor API
client) of spec section 4.1; no such taxonomy exists in src/. -/
inductive SourceType where
  | authenticated
  | passive
  | vendorApi
deriving DecidableEq, Repr

/-- Modelled from the spec: an authenticated/active-probe source outranks
a passive-listener source (tie-break (c) of section 4.3). -/
def sourceRank : SourceType → Nat
  | .passive => 0
  | .authenticated => 1
  | .vendorApi => 1

/-- Modelled from the spec: a raw observation tagged with source,
timestamp and confidence_hint (the DiscoveryRecord of section 3),
absent from src/. -/
structure Observation where
  mac : String
  hostname : String
  confidence : ℚ
  timestamp : Nat
  source : SourceType
deriving DecidableEq, Repr

/-- Modelled from the spec: a canonical Device record keyed by mac with
the attribute values that won the merge, absent from src/. -/
structure Device where
  mac : String
  hostname : String
  confidence : ℚ
  timestamp : Nat
  source : SourceType
deriving DecidableEq, Repr

/-- A Device created from a first resolved observation. -/
def Device.ofObservation (o : Observation) : Device :=
  ⟨o.mac, o.hostname, o.confidence, o.timestamp, o.source⟩

/-- Modelled from the spec: the merge precedence of section 4.3 —
(a) higher confidence_hint wins; (b) on tie, more recent timestamp wins;
(c) on tie, an authenticated/active-probe source outranks a passive
listener. True when the incoming observation beats the stored values. -/
def challengerWins (d : Device) (o : Observation) : Bool :=
  if d.confidence < o.confidence then true
  else if o.confidence < d.confidence then false
  else if d.timestamp < o.timestamp then true
  else if o.timestamp < d.timestamp then false
  else sourceRank d.source < sourceRank o.source

/-- Modelled from the spec: merge an observation into the Device holding
the same identity key, field-by-field by precedence. -/
def mergeDevice (d : Device) (o : Observation) : Device :=
  if challengerWins d o then Device.ofObservation o else d

/-- Modelled from the spec: one step of Resolve (section 4.3) — look up
an existing Device by mac and merge, or create a provisional Device. -/
def resolveStep (devices : List Device) (o : Observation) : List Device :=
  if devices.any (fun d => d.mac == o.mac) then
    devices.map (fun d => if d.mac == o.mac then mergeDevice d o else d)
  else devices ++ [Device.ofObservation o]

/-- Modelled from the spec: Resolve over a round's observations. -/
def resolve (obs : List Observation) : List Device :=
  obs.foldl resolveStep []

/-- The authenticated-query observation of the spec scenario:
hostname "sw1", confidence 0.9, timestamp 100. -/
def obsAuth : Observation :=
  ⟨"aa:bb:cc:dd:ee:ff", "sw1", 9/10, 100, .authenticated⟩

/-- The passive-listener observation of the spec scenario:
hostname "switch-unknown", confidence 0.4, timestamp 105. -/
def obsPassive : Observation :=
  ⟨"aa:bb:cc:dd:ee:ff", "switch-unknown", 4/10, 105, .passive⟩

/-- C7: the two observations for MAC aa:bb:cc:dd:ee:ff resolve — in
either arrival order — to exactly one Device whose hostname is "sw1":
the higher-confidence value wins despite its older timestamp. -/
theorem resolver_scenario_sw1 :
    (resolve [obsAuth, obsPassive]).length = 1 ∧
    (resolve [obsAuth, obsPassive]).map Device.hostname = ["sw1"] ∧
    (resolve [obsAuth, obsPassive]).map Device.mac = ["aa:bb:cc:dd:ee:ff"] ∧
    (resolve [obsPassive, obsAuth]).map Device.hostname = ["sw1"] := by
  norm_num [resolve, resolveStep, mergeDevice, challengerWins, Device.ofObservation,
    obsAuth, obsPassive]

/-! ## Database layer: src/database/db_utils.py

A SQLAlchemy session stages added rows as pending; commit flushes them
into the store assigning consecutive primary keys (or raises, modelled
by the commitFails flag); rollback discards the pending rows. Each
add_* function is the try/commit/except/rollback/raise pattern of the
source, returning the final stored state alongside the outcome. -/

/-- The exceptions the add_* functions can see. -/
inductive DBError where
  | commitFailed
  | valueError
deriving DecidableEq, Repr

/-- The table-specific payload of one record; fields not relevant to the
claims are collapsed into an opaque payload string. -/
inductive RowData where
  | device (status : DeviceStatus) (payload : String)
  | securityEvent (severity : AlertSeverity) (payload : String)
  | metric (payload : String)
  | traffic (payload : String)
  | topologyChange (payload : String)
deriving DecidableEq, Repr

/-- The persistent store: committed rows with their ids, plus the next
primary key. -/
structure DB where
  rows : List (Nat × RowData)
  nextId : Nat
deriving DecidableEq, Repr

/-- An open session: the stored database plus pending added rows. -/
structure DBSession where
  db : DB
  pending : List RowData
deriving DecidableEq, Repr

/-- session.add(obj): stages the row. -/
def DBSession.add (s : DBSession) (r : RowData) : DBSession :=
  { s with pending := s.pending ++ [r] }

/-- session.commit(): flushes the pending rows, assigning consecutive
ids from nextId, or raises leaving the store untouched. Returns the new
store and the assigned ids. -/
def DBSession.commit (s : DBSession) (commitFails : Bool) :
    Except DBError (DB × List Nat) :=
  if commitFails then .error .commitFailed
  else
    let ids := (List.range s.pending.length).map (· + s.db.nextId)
    .ok ({ rows := s.db.rows ++ ids.zip s.pending,
           nextId := s.db.nextId + s.pending.length }, ids)

/-- The shared body of the add_* functions after any enum conversion:
session.add, session.commit, return obj.id; on an exception rollback
(discarding the pending row) and re-raise. -/
def addRecord (db : DB) (rd : RowData) (commitFails : Bool) :
    Except DBError Nat × DB :=
  let sess := DBSession.add ⟨db, []⟩ rd
  match sess.commit commitFails with
  | .ok (db2, ids) => (.ok (ids.headD 0), db2)
  | .error e => (.error e, sess.db)

/-- The status argument of add_network_device: the isinstance check of
line 54 distinguishes a string from an already-converted enum value. -/
inductive StatusArg where
  | str (s : String)
  | enumVal (v : DeviceStatus)
deriving DecidableEq, Repr

/-- The severity argument of add_security_event (line 104). -/
inductive SeverityArg where
  | str (s : String)
  | enumVal (v : AlertSeverity)
deriving DecidableEq, Repr

/-- add_network_device (lines 49-66): converts a string status through
DeviceStatus(...) — a ValueError there is caught by the except branch,
which rolls back and re-raises — then adds and commits the row. -/
def add_network_device (db : DB) (statusArg : StatusArg) (payload : String)
    (commitFails : Bool) : Except DBError Nat × DB :=
  match (match statusArg with
         | .str s => DeviceStatus.ofValue? s
         | .enumVal v => some v) with
  | none => (.error .valueError, db)
  | some st => addRecord db (.device st payload) commitFails

/-- add_security_event (lines 99-116): same shape with AlertSeverity. -/
def add_security_event (db : DB) (severityArg : SeverityArg) (payload : String)
    (commitFails : Bool) : Except DBError Nat × DB :=
  match (match severityArg with
         | .str s => AlertSeverity.ofValue? s
         | .enumVal v => some v) with
  | none => (.error .valueError, db)
  | some sv => addRecord db (.securityEvent sv payload) commitFails

/-- add_device_performance_metric (lines 149-162). -/
def add_device_performance_metric (db : DB) (payload : String)
    (commitFails : Bool) : Except DBError Nat × DB :=
  addRecord db (.metric payload) commitFails

/-- add_network_traffic (lines 190-203). -/
def add_network_traffic (db : DB) (payload : String)
    (commitFails : Bool) : Except DBError Nat × DB :=
  addRecord db (.traffic payload) commitFails

/-- add_topology_change (lines 226-239). -/
def add_topology_change (db : DB) (payload : String)
    (commitFails : Bool) : Except DBError Nat × DB :=
  addRecord db (.topologyChange payload) commitFails

/-- An insert is atomic: on an error the stored state is returned
unchanged (and the error propagates); on success the returned id is the
new row's primary key and exactly that row was appended. -/
def InsertAtomic (run : Except DBError Nat × DB) (db : DB) : Prop :=
  (∀ e, run.1 = .error e → run.2 = db) ∧
  (∀ i, run.1 = .ok i →
    i = db.nextId ∧ ∃ rd, run.2.rows = db.rows ++ [(i, rd)])

theorem addRecord_atomic (db : DB) (rd : RowData) (cf : Bool) :
    InsertAtomic (addRecord db rd cf) db := by
  constructor
  · intro e he
    unfold addRecord DBSession.commit DBSession.add at he ⊢
    cases cf
    · simp at he
    · simp
  · intro i hi
    unfold addRecord DBSession.commit DBSession.add at hi ⊢
    cases cf
    · simp [List.range_succ] at hi ⊢
      subst hi
      exact ⟨rfl, rfl⟩
    · simp at hi

/-- C8: each of the five record-insertion functions is atomic with
respect to errors — a raising insert leaves the stored state unchanged
and propagates the exception, and a successful insert returns the id of
the newly created row, which is the only row added. -/
theorem db_inserts_atomic (db : DB) (statusArg : StatusArg)
    (severityArg : SeverityArg) (payload : String) (cf : Bool) :
    InsertAtomic (add_network_device db statusArg payload cf) db ∧
    InsertAtomic (add_security_event db severityArg payload cf) db ∧
    InsertAtomic (add_device_performance_metric db payload cf) db ∧
    InsertAtomic (add_network_traffic db payload cf) db ∧
    InsertAtomic (add_topology_change db payload cf) db := by
  refine ⟨?_, ?_, addRecord_atomic db _ cf, addRecord_atomic db _ cf,
    addRecord_atomic db _ cf⟩
  · unfold add_network_device
    cases h : (match statusArg with
               | .str s => DeviceStatus.ofValue? s
               | .enumVal v => some v) with
    | none =>
      exact ⟨fun e _ => rfl, fun i hi => by simp at hi⟩
    | some st => exact addRecord_atomic db _ cf
  · unfold add_security_event
    cases h : (match severityArg with
               | .str s => AlertSeverity.ofValue? s
               | .enumVal v => some v) with
    | none =>
      exact ⟨fun e _ => rfl, fun i hi => by simp at hi⟩
    | some sv => exact addRecord_atomic db _ cf

/-! ## Mock data generation: src/data/mock_generator.py -/

/-- One record produced by generate_system_metrics; the timestamp is
omitted (it never interacts with the clamped fields). -/
structure SystemMetric where
  server_id : String
  cpu_usage : ℚ
  memory_usage : ℚ
  disk_io : ℚ
  network_throughput : ℚ
deriving DecidableEq, Repr

/-- The range clamp of generate_system_metrics (lines 131-134):
max(0.1, min(99.9, value)). -/
def clampMetric (x : ℚ) : ℚ :=
  max (1 / 10) (min (999 / 10) x)

/-- The default server id f-string srv-{randint(1,10):03d}. -/
def defaultServerId (draw : Nat) : String :=
  if 1 + draw % 10 = 10 then "srv-010" else "srv-00" ++ toString (1 + draw % 10)

/-- generate_system_metrics of src/data/mock_generator.py (lines
93-145): for each of num_points timestamps, each of the four metrics is
base + i * trend + noise, clamped into range. The random.uniform draws
(bases, trends, per-point noise) are explicit arguments, unconstrained
here so that the property holds for every possible draw. -/
def generate_system_metrics (num_points : Nat) (server_id : Option String)
    (base_cpu base_memory base_disk base_network : ℚ)
    (cpu_trend memory_trend disk_trend network_trend : ℚ)
    (noise : Nat → Fin 4 → ℚ) (sidDraws : Nat → Nat) : List SystemMetric :=
  (List.range num_points).map (fun i =>
    { server_id := match server_id with
        | some s => s
        | none => defaultServerId (sidDraws i)
      cpu_usage := clampMetric (base_cpu + i * cpu_trend + noise i 0)
      memory_usage := clampMetric (base_memory + i * memory_trend + noise i 1)
      disk_io := clampMetric (base_disk + i * disk_trend + noise i 2)
      network_throughput := clampMetric (base_network + i * network_trend + noise i 3) })

theorem clampMetric_bounds (x : ℚ) :
    1 / 10 ≤ clampMetric x ∧ clampMetric x ≤ 999 / 10 := by
  unfold clampMetric
  constructor
  · exact le_max_left _ _
  · exact max_le (by norm_num) (min_le_left _ _)

/-- C9: every record generate_system_metrics returns has all four metric
fields within [0.1, 99.9], for every num_points, server id and every
possible random draw of bases, trends and noise. -/
theorem generate_system_metrics_bounded (num_points : Nat)
    (server_id : Option String)
    (base_cpu base_memory base_disk base_network : ℚ)
    (cpu_trend memory_trend disk_trend network_trend : ℚ)
    (noise : Nat → Fin 4 → ℚ) (sidDraws : Nat → Nat) (m : SystemMetric)
    (hm : m ∈ generate_system_metrics num_points server_id
      base_cpu base_memory base_disk base_network
      cpu_trend memory_trend disk_trend network_trend noise sidDraws) :
    (1 / 10 ≤ m.cpu_usage ∧ m.cpu_usage ≤ 999 / 10) ∧
    (1 / 10 ≤ m.memory_usage ∧ m.memory_usage ≤ 999 / 10) ∧
    (1 / 10 ≤ m.disk_io ∧ m.disk_io ≤ 999 / 10) ∧
    (1 / 10 ≤ m.network_throughput ∧ m.network_throughput ≤ 999 / 10) := by
  unfold generate_system_metrics at hm
  rw [List.mem_map] at hm
  obtain ⟨i, _, rfl⟩ := hm
  exact ⟨clampMetric_bounds _, clampMetric_bounds _, clampMetric_bounds _,
    clampMetric_bounds _⟩

/-- The record of the one-point run with all draws zero. -/
def metricWitness : SystemMetric :=
  { server_id := "srv-001", cpu_usage := 1 / 10, memory_usage := 1 / 10,
    disk_io := 1 / 10, network_throughput := 1 / 10 }

theorem generate_system_metrics_bounded_witness :
    (1 / 10 ≤ metricWitness.cpu_usage ∧ metricWitness.cpu_usage ≤ 999 / 10) ∧
    (1 / 10 ≤ metricWitness.memory_usage ∧ metricWitness.memory_usage ≤ 999 / 10) ∧
    (1 / 10 ≤ metricWitness.disk_io ∧ metricWitness.disk_io ≤ 999 / 10) ∧
    (1 / 10 ≤ metricWitness.network_throughput ∧ metricWitness.network_throughput ≤ 999 / 10) :=
  generate_system_metrics_bounded 1 none 0 0 0 0 0 0 0 0
    (fun _ _ => 0) (fun _ => 0) metricWitness
    (by
      unfold generate_system_metrics metricWitness defaultServerId clampMetric
      norm_num
      rfl)

/-- The change_types list of generate_topology_changes (lines 261-267). -/
def changeTypes : List String :=
  ["Device Added", "Device Removed", "Link Added", "Link Removed", "Status Change"]

/-- The device_types list of generate_topology_changes (lines 269-276). -/
def topoDeviceTypes : List String :=
  ["Router", "Switch", "Firewall", "Server", "Access Point", "Workstation"]

/-- The status values drawn for a Status Change (lines 310-313). -/
def topoStatuses : List String :=
  ["Online", "Offline", "Degraded"]

/-- random.choice(l), with the draw mapped into the list by remainder. -/
def listChoice (l : List String) (draw : Nat) : String :=
  l.getD (draw % l.length) ""

/-- The re-draw loop of lines 311-313: new_status = choice(...); while
old == new: new = choice(...). Each iteration consumes one draw; none
models the run that never leaves the loop within the supplied draws. -/
def drawDistinctStatus (old : String) : List Nat → Option String
  | [] => none
  | d :: rest =>
    if listChoice topoStatuses d = old then drawDistinctStatus old rest
    else some (listChoice topoStatuses d)

/-- The details payload of one topology change, structured by the
if/elif branches of lines 296-314. -/
inductive ChangeDetails where
  | deviceAdded (ip mac : String)
  | deviceRemoved (ip : String)
  | linkAdded (srcDev : String)
  | linkRemoved (srcDev : String)
  | statusChange (oldS newS : String)
deriving DecidableEq, Repr

/-- One record of generate_topology_changes (change_id and timestamp
omitted; they never interact with the statuses). -/
structure TopologyChangeRec where
  change_type : String
  device_id : String
  device_type : String
  details : ChangeDetails
deriving DecidableEq, Repr

/-- The random draws one loop iteration consumes. -/
structure ChangeDraws where
  ctDraw : Nat
  dtDraw : Nat
  device_id : String
  ip : String
  mac : String
  srcDev : String
  oldDraw : Nat
  newDraws : List Nat
deriving DecidableEq, Repr

/-- One iteration of the generation loop (lines 284-323): draw the
change type and device type, then build the details by the if/elif
chain; a Status Change re-draws the new status until it differs. -/
def mkChange (d : ChangeDraws) : Option TopologyChangeRec :=
  if listChoice changeTypes d.ctDraw = "Device Added" then
    some ⟨listChoice changeTypes d.ctDraw, d.device_id,
      listChoice topoDeviceTypes d.dtDraw, .deviceAdded d.ip d.mac⟩
  else if listChoice changeTypes d.ctDraw = "Device Removed" then
    some ⟨listChoice changeTypes d.ctDraw, d.device_id,
      listChoice topoDeviceTypes d.dtDraw, .deviceRemoved d.ip⟩
  else if listChoice changeTypes d.ctDraw = "Link Added" then
    some ⟨listChoice changeTypes d.ctDraw, d.device_id,
      listChoice topoDeviceTypes d.dtDraw, .linkAdded d.srcDev⟩
  else if listChoice changeTypes d.ctDraw = "Link Removed" then
    some ⟨listChoice changeTypes d.ctDraw, d.device_id,
      listChoice topoDeviceTypes d.dtDraw, .linkRemoved d.srcDev⟩
  else
    match drawDistinctStatus (listChoice topoStatuses d.oldDraw) d.newDraws with
    | none => none
    | some ns => some ⟨listChoice changeTypes d.ctDraw, d.device_id,
        listChoice topoDeviceTypes d.dtDraw,
        .statusChange (listChoice topoStatuses d.oldDraw) ns⟩

/-- The generation loop over the requested indices; none when any
iteration fails to terminate. -/
def collectChanges (draws : Nat → ChangeDraws) : List Nat → Option (List TopologyChangeRec)
  | [] => some []
  | i :: rest =>
    match mkChange (draws i), collectChanges draws rest with
    | some c, some cs => some (c :: cs)
    | _, _ => none

/-- generate_topology_changes of src/data/mock_generator.py (lines
251-325), with the per-iteration random draws explicit. -/
def generate_topology_changes (num_changes : Nat) (draws : Nat → ChangeDraws) :
    Option (List TopologyChangeRec) :=
  collectChanges draws (List.range num_changes)

theorem drawDistinctStatus_ne (old : String) (ds : List Nat) (s : String)
    (h : drawDistinctStatus old ds = some s) : s ≠ old := by
  induction ds with
  | nil => cases h
  | cons d rest ih =>
    unfold drawDistinctStatus at h
    split at h
    · exact ih h
    · cases h
      assumption

theorem mkChange_status_distinct (d : ChangeDraws) (c : TopologyChangeRec)
    (h : mkChange d = some c) (hct : c.change_type = "Status Change") :
    ∃ o n, c.details = ChangeDetails.statusChange o n ∧ o ≠ n := by
  unfold mkChange at h
  split_ifs at h with h1 h2 h3 h4
  · cases h
    rw [h1] at hct
    simp at hct
  · cases h
    rw [h2] at hct
    simp at hct
  · cases h
    rw [h3] at hct
    simp at hct
  · cases h
    rw [h4] at hct
    simp at hct
  · cases hds : drawDistinctStatus (listChoice topoStatuses d.oldDraw) d.newDraws with
    | none => rw [hds] at h; cases h
    | some ns =>
      rw [hds] at h
      cases h
      exact ⟨_, ns, rfl, (drawDistinctStatus_ne _ _ _ hds).symm⟩

theorem collectChanges_mem (draws : Nat → ChangeDraws) :
    ∀ (l : List Nat) (cs : List TopologyChangeRec),
      collectChanges draws l = some cs →
        ∀ c ∈ cs, ∃ i, mkChange (draws i) = some c := by
  intro l
  induction l with
  | nil =>
    intro cs h c hc
    cases h
    cases hc
  | cons i rest ih =>
    intro cs h c hc
    unfold collectChanges at h
    cases h1 : mkChange (draws i) with
    | none => rw [h1] at h; cases h
    | some c0 =>
      rw [h1] at h
      cases h2 : collectChanges draws rest with
      | none => rw [h2] at h; cases h
      | some cs0 =>
        rw [h2] at h
        cases h
        rcases List.mem_cons.mp hc with rfl | hc2
        · exact ⟨i, h1⟩
        · exact ih cs0 h2 c hc2

/-- C10: whenever generate_topology_changes returns, every produced
record whose change_type is "Status Change" carries an old status and a
new status that differ — the new status is re-drawn until it leaves the
old one — so no generated status-change event is a no-op transition. -/
theorem generate_topology_changes_status_distinct (num_changes : Nat)
    (draws : Nat → ChangeDraws) (cs : List TopologyChangeRec)
    (h : generate_topology_changes num_changes draws = some cs) :
    ∀ c ∈ cs, c.change_type = "Status Change" →
      ∃ o n, c.details = ChangeDetails.statusChange o n ∧ o ≠ n := by
  intro c hc hct
  obtain ⟨i, hi⟩ := collectChanges_mem draws (List.range num_changes) cs h c hc
  exact mkChange_status_distinct (draws i) c hi hct

/-- Concrete draws: change type index 4 (Status Change), old status
"Online", one re-draw yielding "Offline". -/
def topoWitnessDraws : Nat → ChangeDraws :=
  fun _ => ⟨4, 0, "DEV-1001", "10.1.2.3", "aa:bb:cc:dd:ee:01", "DEV-2002", 0, [1]⟩

/-- The record those draws produce. -/
def topoWitnessChange : TopologyChangeRec :=
  ⟨"Status Change", "DEV-1001", "Router", .statusChange "Online" "Offline"⟩

theorem generate_topology_changes_status_distinct_witness :
    generate_topology_changes 1 topoWitnessDraws = some [topoWitnessChange] ∧
    (∃ o n, topoWitnessChange.details = ChangeDetails.statusChange o n ∧ o ≠ n) :=
  ⟨by rfl,
   generate_topology_changes_status_distinct 1 topoWitnessDraws [topoWitnessChange]
     (by rfl) topoWitnessChange (by simp) (by rfl)⟩

/-! ## Vulnerability findings: src/pages/4_Network_Topology.py
(lines 424-458) -/

/-- The vulnerability_types list (lines 425-431). -/
def vulnerabilityTypes : List String :=
  ["Single Point of Failure", "Bottleneck Link", "High Load Node",
   "Redundancy Issue", "Connectivity Risk"]

/-- The severity_levels list (line 433). -/
def severityLevels : List String :=
  ["Critical", "High", "Medium"]

/-- The recommendation choices of line 457. -/
def recommendationChoices : List String :=
  ["redundancy", "load balancing", "failover", "monitoring"]

/-- random.randint(a, b) with an explicit draw: a + draw % (b - a + 1). -/
def randintDraw (a b draw : Nat) : Nat :=
  a + draw % (b - a + 1)

/-- One row of the vuln_data table. -/
structure VulnFinding where
  vuln : String
  severity : String
  affectedNodes : Nat
  affectedLinks : Nat
  riskScore : Nat
  recommendation : String
deriving DecidableEq, Repr

/-- The random draws one iteration of the vuln_data loop consumes. -/
structure VulnDraws where
  sevDraw : Nat
  nodesDraw : Nat
  linksDraw : Nat
  riskDraw : Nat
  recDraw : Nat
deriving DecidableEq, Repr

/-- One iteration of the vuln_data loop (lines 436-458): severity is
severity_levels[randint(0, min(i, 2))], affected nodes and links are
randint(1, 5) and randint(0, 3), and the risk score is drawn by
randint from the band of the already-drawn severity. Nothing here reads
the analysis graph, its centrality values, or the affected counts. -/
def mkVulnFinding (i : Nat) (d : VulnDraws) : VulnFinding :=
  { vuln := vulnerabilityTypes.getD i ""
    severity := severityLevels.getD (randintDraw 0 (min i 2) d.sevDraw) ""
    affectedNodes := randintDraw 1 5 d.nodesDraw
    affectedLinks := randintDraw 0 3 d.linksDraw
    riskScore :=
      if severityLevels.getD (randintDraw 0 (min i 2) d.sevDraw) "" = "Critical" then
        randintDraw 80 100 d.riskDraw
      else if severityLevels.getD (randintDraw 0 (min i 2) d.sevDraw) "" = "High" then
        randintDraw 60 79 d.riskDraw
      else randintDraw 40 59 d.riskDraw
    recommendation := "Implement " ++ recommendationChoices.getD (d.recDraw % 4) ""
      ++ " for affected components" }

/-- vuln_data (lines 435-458): five findings, one per vulnerability
type, each built from fresh random draws. -/
def vuln_data (draws : Nat → VulnDraws) : List VulnFinding :=
  (List.range 5).map (fun i => mkVulnFinding i (draws i))

/-- C1 evidence: two runs of the vuln_data loop on the same graph
snapshot, differing only in the random severity draw of iteration 1,
produce the same finding type and identical affected-node and
affected-link counts, yet one finding is Critical with risk 80 and the
other High with risk 60 — severity and risk score are drawn from the
RNG, not computed from the counts. -/
theorem vuln_data_not_deterministic :
    (vuln_data (fun _ => ⟨0, 0, 0, 0, 0⟩))[1]? =
      some ⟨"Bottleneck Link", "Critical", 1, 0, 80,
        "Implement redundancy for affected components"⟩ ∧
    (vuln_data (fun _ => ⟨1, 0, 0, 0, 0⟩))[1]? =
      some ⟨"Bottleneck Link", "High", 1, 0, 60,
        "Implement redundancy for affected components"⟩ :=
  ⟨rfl, rfl⟩

/-- C4: the claim asserts that the operational status of a Device ranges
over exactly five values including Unknown. On the code this is false:
the DeviceStatus enum of src/database/models.py declares exactly four
members, none of whose values is "unknown", and the mock inventory
generator draws from the same four values; the concrete status string
"unknown" has no representation in the data model. -/
theorem deviceStatus_unknown_not_representable :
    DeviceStatus.ofValue? "unknown" = none ∧
    deviceStatusMembers.map DeviceStatus.value =
      ["online", "warning", "offline", "maintenance"] ∧
    deviceStatusMembers.length = 4 ∧
    ("unknown" ∈ inventoryStatuses) = False := by
  refine ⟨rfl, rfl, rfl, ?_⟩
  simp [inventoryStatuses]

/-- C4 (amended): the operational status of a Device ranges over exactly
the four values Online, Warning, Offline, Maintenance — every DeviceStatus
member is one of these four, each of the four is representable, and the
mock inventory generator draws only values representable in the enum. -/
theorem deviceStatus_exactly_four (s : DeviceStatus) :
    (s = .online ∨ s = .warning ∨ s = .offline ∨ s = .maintenance) ∧
    (∀ v ∈ inventoryStatuses, ∃ m : DeviceStatus, m.value = v) ∧
    DeviceStatus.ofValue? "online" = some .online ∧
    DeviceStatus.ofValue? "warning" = some .warning ∧
    DeviceStatus.ofValue? "offline" = some .offline ∧
    DeviceStatus.ofValue? "maintenance" = some .maintenance := by
  refine ⟨?_, ?_, rfl, rfl, rfl, rfl⟩
  · cases s <;> simp
  · intro v hv
    simp [inventoryStatuses] at hv
    rcases hv with h | h | h | h <;> subst h
    · exact ⟨.online, rfl⟩
    · exact ⟨.offline, rfl⟩
    · exact ⟨.warning, rfl⟩
    · exact ⟨.maintenance, rfl⟩

end NetSecAudit
